import Mathlib

/-!
Verification of the field-mapping layer of PyPDFFill (src/pypdffill/mappers.py).

The Python module maps PDF form widgets to a dynamically synthesized pydantic
record type.  We shallowly embed the layer: Python runtime values that flow
through validation are an inductive `Value`; a pydantic `FieldInfo` produced by
`FieldMapper.get_field` becomes `FieldDef`; the synthesized record type becomes
a list of `ModelField`; raising becomes `Except`.  Python dicts keyed by
strings become association lists whose lookup returns the first match, and the
dict comprehension in `generate_model` is mirrored by `dictOf`, which keeps the
first-insertion position of a key while letting a later duplicate overwrite the
value, exactly as a Python dict does.
-/

namespace PyPdfFill

/-- A Python runtime value as it flows through the mapping layer.  Python
floats and ints are carried as the string that `str` renders them to
(`VNum "10000.78"` stands for the float literal `10000.78`), since the claims
only observe numbers through that rendering. -/
inductive Value where
  | VStr (s : String)
  | VNum (repr : String)
  | VBool (b : Bool)
  | VNone
deriving DecidableEq, Repr

/-- Python `str(value)` restricted to the values of `Value`. -/
def pyStr : Value → String
  | .VStr s => s
  | .VNum r => r
  | .VBool true => "True"
  | .VBool false => "False"
  | .VNone => "None"

/-- Embeds `any_to_str` (mappers.py lines 90-93): `None` becomes the empty
string, anything else its `str` form. -/
def any_to_str (value : Value) : String :=
  match value with
  | .VNone => ""
  | v => pyStr v

/-- The five widget kinds admitted by the `_VALID_TYPES` literal type
(mappers.py line 87).  Kept as strings because the source dispatches on
string literals. -/
def validTypes : List String := ["text", "checkbox", "radio", "dropdown", "signature"]

/-- Embeds the `FieldMapper` pydantic model (mappers.py lines 96-120).  The
declared attribute defaults (`widget_type="text"`, `max_length=None`,
`default_value=None`) are carried as structure-field defaults.  A
`default_value` is a string, a boolean, or absent. -/
structure FieldMapper where
  field_name : String
  widget_type : String := "text"
  max_length : Option Int := none
  widget_name : String
  default_value : Option (String ⊕ Bool) := none
deriving DecidableEq, Repr

/-- Embeds pydantic validation of the `FieldMapper` constructor arguments: the
only constraint pydantic enforces at construction is that `widget_type` is one
of the literal values; the attribute types are enforced by the embedding
types themselves.  No cross-field check runs at construction time. -/
def constructFieldMapper (field_name : String) (widget_type : String)
    (max_length : Option Int) (widget_name : String)
    (default_value : Option (String ⊕ Bool)) : Except String FieldMapper :=
  if widget_type ∈ validTypes then
    .ok { field_name := field_name, widget_type := widget_type,
          max_length := max_length, widget_name := widget_name,
          default_value := default_value }
  else
    .error "Input should be a valid widget type"

/-- The exceptions `get_field` can raise: `TypeError` for a checkbox whose
default is a string (mappers.py lines 144-146) and `NotImplementedError` for
the catch-all widget kinds (lines 155-157). -/
inductive GenErr where
  | typeError (msg : String)
  | notImplemented (msg : String)
deriving DecidableEq, Repr

/-- The `default_value` attribute as the runtime value pydantic stores when the
field is omitted from the input. -/
def valueOfDefault : Option (String ⊕ Bool) → Value
  | none => .VNone
  | some (.inl s) => .VStr s
  | some (.inr b) => .VBool b

/-- The kind of value a synthesized field holds: `str` or `bool`, the two type
annotations `get_field` can return. -/
inductive FType where
  | str
  | bool
deriving DecidableEq, Repr

/-- The `(type, FieldInfo)` pair returned by `FieldMapper.get_field`:
the annotation, the `AliasChoices` validation aliases in order, the
serialization alias, the optional `max_length` constraint, and the default. -/
structure FieldDef where
  ftype : FType
  aliases : List String
  serAlias : String
  maxLength : Option Int
  default : Value
deriving DecidableEq, Repr

/-- Embeds `FieldMapper.get_field` (mappers.py lines 122-157).  The text branch
returns a `str` field with `AliasChoices(field_name, widget_name)`,
serialization alias `widget_name`, the configured default and, when present,
`max_length`.  The checkbox branch first raises `TypeError` on a string
default, otherwise returns a `bool` field with the same aliasing.  Every other
widget type hits the catch-all and raises `NotImplementedError` with a message
naming the widget type. -/
def FieldMapper.get_field (fm : FieldMapper) : Except GenErr FieldDef :=
  if fm.widget_type = "text" then
    match fm.max_length with
    | some k =>
      .ok { ftype := .str, aliases := [fm.field_name, fm.widget_name],
            serAlias := fm.widget_name, maxLength := some k,
            default := valueOfDefault fm.default_value }
    | none =>
      .ok { ftype := .str, aliases := [fm.field_name, fm.widget_name],
            serAlias := fm.widget_name, maxLength := none,
            default := valueOfDefault fm.default_value }
  else if fm.widget_type = "checkbox" then
    match fm.default_value with
    | some (.inl _) => .error (.typeError "Checkbox default value must be a boolean.")
    | _ =>
      .ok { ftype := .bool, aliases := [fm.field_name, fm.widget_name],
            serAlias := fm.widget_name, maxLength := none,
            default := valueOfDefault fm.default_value }
  else
    .error (.notImplemented ("Widget type " ++ fm.widget_type ++ " not implemented."))

/-- Inserts a key into an association list with Python-dict semantics: an
existing key keeps its position and gets the new value, a fresh key is
appended. -/
def dictInsert (k : String) (v : α) : List (String × α) → List (String × α)
  | [] => [(k, v)]
  | (k', v') :: rest =>
    if k' = k then (k, v) :: rest else (k', v') :: dictInsert k v rest

/-- Folds a pair list into a Python dict, mirroring the dict comprehension in
`generate_model`: later duplicates overwrite, first-insertion order is kept. -/
def dictOf (l : List (String × α)) : List (String × α) :=
  l.foldl (fun acc p => dictInsert p.1 p.2 acc) []

/-- One field of the synthesized record type: its logical name, the data of
its `FieldDef`, and whether the `generate_model` validators dict registered
the `any_to_str` before-validator for it. -/
structure ModelField where
  name : String
  ftype : FType
  aliases : List String
  serAlias : String
  maxLength : Option Int
  default : Value
  coerceStr : Bool
deriving DecidableEq, Repr

/-- Assembles a `ModelField` from a fields-dict entry.  The `coerceStr` flag
embeds membership in the validators dict of `generate_model` (mappers.py
lines 219-225): a before-validator named after the field exists exactly when
some text-typed descriptor carries that field name. -/
def toModelField (ds : List FieldMapper) (n : String) (fd : FieldDef) : ModelField :=
  { name := n, ftype := fd.ftype, aliases := fd.aliases, serAlias := fd.serAlias,
    maxLength := fd.maxLength, default := fd.default,
    coerceStr := ds.any (fun d => d.field_name == n && d.widget_type == "text") }

/-- Evaluates `field.get_field()` for each descriptor in order, producing the
pairs of the fields dict comprehension; the first exception aborts the
comprehension, as in Python. -/
def genFields : List FieldMapper → Except GenErr (List (String × FieldDef))
  | [] => .ok []
  | d :: rest =>
    match d.get_field with
    | .error e => .error e
    | .ok fd =>
      match genFields rest with
      | .error e => .error e
      | .ok tl => .ok ((d.field_name, fd) :: tl)

/-- The synthesized record type: the name passed to `create_model` and its
fields in dict order. -/
structure Model where
  name : String
  fields : List ModelField
deriving DecidableEq, Repr

/-- Embeds `create_model(self.name, __validators__=validators, **fields)` as
called by `generate_model`: evaluate every `get_field`, collapse the pairs
with dict semantics, attach the validator flags. -/
def mkModel (name : String) (ds : List FieldMapper) : Except GenErr Model :=
  match genFields ds with
  | .error e => .error e
  | .ok prs => .ok { name := name, fields := (dictOf prs).map (fun p => toModelField ds p.1 p.2) }

/-- First-match lookup in an input mapping, the dict access pydantic performs
for one alias. -/
def lookupKey (k : String) : List (String × Value) → Option Value
  | [] => none
  | (k', v) :: rest => if k' = k then some v else lookupKey k rest

/-- Pydantic `AliasChoices` resolution: try each alias in order, take the
first one present in the input. -/
def findAlias (choices : List String) (input : List (String × Value)) : Option Value :=
  match choices with
  | [] => none
  | c :: rest =>
    match lookupKey c input with
    | some v => some v
    | none => findAlias rest input

/-- Pydantic core validation of one provided value against the field
annotation, restricted to the `Value` domain the claims exercise: a `str`
field accepts exactly strings (pydantic v2 does not coerce numbers, booleans
or `None` to `str`, which is why `any_to_str` exists) and then enforces
`max_length`; a `bool` field accepts booleans.  The result strings are the
pydantic error types. -/
def validateValue : FType → Option Int → Value → Except String Value
  | .str, ml, .VStr s =>
    (match ml with
     | some k => if (s.length : Int) ≤ k then .ok (.VStr s) else .error "string_too_long"
     | none => .ok (.VStr s))
  | .str, _, _ => .error "string_type"
  | .bool, _, .VBool b => .ok (.VBool b)
  | .bool, _, _ => .error "bool_type"

/-- Validation of one field of the synthesized type against the raw input:
resolve the alias choices; an absent field takes the declared default without
running validators (pydantic does not validate defaults); a present value
first runs the `any_to_str` before-validator when one is registered, then the
core type check. -/
def bindField (mf : ModelField) (input : List (String × Value)) : Except String Value :=
  match findAlias mf.aliases input with
  | none => .ok mf.default
  | some v =>
    validateValue mf.ftype mf.maxLength (if mf.coerceStr then .VStr (any_to_str v) else v)

/-- The per-field outcomes of validating the whole input, in field order. -/
def bindResults (m : List ModelField) (input : List (String × Value)) :
    List (String × Except String Value) :=
  m.map (fun mf => (mf.name, bindField mf input))

/-- The failing fields with their error types. -/
def collectErrors (rs : List (String × Except String Value)) : List (String × String) :=
  rs.filterMap (fun p => match p.2 with | .error e => some (p.1, e) | .ok _ => none)

/-- The successfully bound fields with their values. -/
def collectOks (rs : List (String × Except String Value)) : List (String × Value) :=
  rs.filterMap (fun p => match p.2 with | .ok v => some (p.1, v) | .error _ => none)

/-- Embeds `Model.model_validate(input)`: validate every field; when any
field fails, raise a `ValidationError` enumerating every failing field with
its error type, otherwise produce the bound instance as an attribute mapping
in field order. -/
def model_validate (m : Model) (input : List (String × Value)) :
    Except (List (String × String)) (List (String × Value)) :=
  match collectErrors (bindResults m.fields input) with
  | [] => .ok (collectOks (bindResults m.fields input))
  | errs => .error errs

/-- Embeds `instance.model_dump(by_alias=True)`: one entry per model field in
order, keyed by the serialization alias (the widget name), valued by the
bound attribute. -/
def model_dump_by_alias (m : Model) (inst : List (String × Value)) :
    List (String × Value) :=
  m.fields.map (fun mf => (mf.serAlias, (lookupKey mf.name inst).getD .VNone))

/-- A `pathlib.Path`, modelled at the boundary as the string it was built
from; path normalization is external-library behavior the core never
inspects. -/
structure Path where
  toStr : String
deriving DecidableEq, Repr

/-- The immutable attributes of the `PdfForm` pydantic model (mappers.py
lines 202-204). -/
structure PdfForm where
  name : String
  fields : List FieldMapper
  blank_pdf_path : Path
deriving DecidableEq, Repr

/-- Embeds the `str_to_path` before-validator (mappers.py lines 208-213): a
string input is wrapped into a `Path`, a `Path` input is returned unchanged. -/
def str_to_path (value : String ⊕ Path) : Path :=
  match value with
  | .inl s => Path.mk s
  | .inr p => p

/-- Constructing a `PdfForm`: the `blank_pdf_path` argument, a string or a
path, passes through the `str_to_path` validator before being stored. -/
def mkPdfForm (name : String) (fields : List FieldMapper) (blank : String ⊕ Path) :
    PdfForm :=
  { name := name, fields := fields, blank_pdf_path := str_to_path blank }

/-- A `PdfForm` instance together with its private `_form_model` cache slot
(mappers.py line 206). -/
structure PdfFormState where
  form : PdfForm
  formModel : Option Model
deriving DecidableEq, Repr

/-- Embeds `PdfForm.generate_model` (mappers.py lines 215-231): when the cache
is empty, build the fields dict and the validators dict and synthesize the
record type, storing it in `_form_model` on success; an exception from
`get_field` propagates and leaves the cache untouched.  When the cache is
filled, return the cached type unchanged. -/
def generate_model (s : PdfFormState) : Except GenErr Model × PdfFormState :=
  match s.formModel with
  | some m => (.ok m, s)
  | none =>
    match mkModel s.form.name s.form.fields with
    | .ok m => (.ok m, { s with formModel := some m })
    | .error e => (.error e, s)

/-- Embeds the `form` property (mappers.py lines 233-238): when the cache is
empty it calls `generate_model` and assigns the result to `_form_model`, then
returns the cached type. -/
def formProperty (s : PdfFormState) : Except GenErr Model × PdfFormState :=
  match s.formModel with
  | some m => (.ok m, s)
  | none =>
    match generate_model s with
    | (.ok m, s') => (.ok m, { s' with formModel := some m })
    | (.error e, s') => (.error e, s')

/-- The bytes of a file. -/
abbrev Bytes := List Nat

/-- A file system, mapping a path string to the contents of the file there,
when one exists. -/
abbrev FileSys := String → Option Bytes

/-- The exception the external PDF writer adapter may raise while locating
the template or filling it. -/
inductive AdapterErr where
  | err (msg : String)
deriving DecidableEq, Repr

/-- Embeds `PdfForm.generate_pdf` (mappers.py lines 240-255) against an
abstract writer adapter: `fillResult` is the outcome of
`PdfWrapper(...).fill(form.model_dump(by_alias=True))`.  Only after the fill
succeeds is the output path opened and written; an adapter exception
propagates before any file is created, leaving the file system unchanged. -/
def generate_pdf (fillResult : Except AdapterErr Bytes) (outputPath : String)
    (fs : FileSys) : Except AdapterErr Unit × FileSys :=
  match fillResult with
  | .error e => (.error e, fs)
  | .ok bs => (.ok (), fun p => if p = outputPath then some bs else fs p)

/-! Infrastructure lemmas about the embedding. -/

/-- All alias keys a schema exposes, logical names and widget names
interleaved in descriptor order. -/
def allKeys : List FieldMapper → List String
  | [] => []
  | d :: tl => d.field_name :: d.widget_name :: allKeys tl

theorem mem_allKeys {ds : List FieldMapper} {d : FieldMapper} (h : d ∈ ds) :
    d.field_name ∈ allKeys ds ∧ d.widget_name ∈ allKeys ds := by
  induction ds with
  | nil => cases h
  | cons a tl ih =>
    rcases List.mem_cons.mp h with rfl | h'
    · exact ⟨List.mem_cons_self .., List.mem_cons_of_mem _ (List.mem_cons_self ..)⟩
    · exact ⟨List.mem_cons_of_mem _ (List.mem_cons_of_mem _ (ih h').1),
        List.mem_cons_of_mem _ (List.mem_cons_of_mem _ (ih h').2)⟩

theorem allKeys_nodup_names {ds : List FieldMapper} (h : (allKeys ds).Nodup) :
    (ds.map FieldMapper.field_name).Nodup := by
  induction ds with
  | nil => exact List.nodup_nil
  | cons a tl ih =>
    rw [allKeys] at h
    rcases List.nodup_cons.mp h with ⟨hfn, h'⟩
    rcases List.nodup_cons.mp h' with ⟨_, htl⟩
    refine List.nodup_cons.mpr ⟨?_, ih htl⟩
    intro hmem
    rcases List.mem_map.mp hmem with ⟨d, hd, hdn⟩
    exact hfn (List.mem_cons_of_mem _ (hdn ▸ (mem_allKeys hd).1))

theorem allKeys_fn_ne_wn {ds : List FieldMapper} {f : FieldMapper}
    (h : (allKeys ds).Nodup) (hf : f ∈ ds) : f.field_name ≠ f.widget_name := by
  induction ds with
  | nil => cases hf
  | cons a tl ih =>
    rw [allKeys] at h
    rcases List.nodup_cons.mp h with ⟨hfn, h'⟩
    rcases List.nodup_cons.mp h' with ⟨_, htl⟩
    rcases List.mem_cons.mp hf with rfl | hf'
    · exact fun e => hfn (e ▸ List.mem_cons_self ..)
    · exact ih htl hf'

theorem allKeys_disj {ds : List FieldMapper} {f d : FieldMapper}
    (h : (allKeys ds).Nodup) (hf : f ∈ ds) (hd : d ∈ ds) (hne : d ≠ f) :
    f.field_name ≠ d.field_name ∧ f.field_name ≠ d.widget_name ∧
    f.widget_name ≠ d.field_name ∧ f.widget_name ≠ d.widget_name := by
  induction ds with
  | nil => cases hf
  | cons a tl ih =>
    rw [allKeys] at h
    rcases List.nodup_cons.mp h with ⟨hfn, h'⟩
    rcases List.nodup_cons.mp h' with ⟨hwn, htl⟩
    have hfn' : a.field_name ∉ allKeys tl := fun hm => hfn (List.mem_cons_of_mem _ hm)
    have hfw : a.field_name ≠ a.widget_name := fun e => hfn (e ▸ List.mem_cons_self ..)
    rcases List.mem_cons.mp hf with rfl | hf' <;> rcases List.mem_cons.mp hd with rfl | hd'
    · exact absurd rfl hne
    · rcases mem_allKeys hd' with ⟨h1, h2⟩
      exact ⟨fun e => hfn' (e ▸ h1), fun e => hfn' (e ▸ h2),
        fun e => hwn (e ▸ h1), fun e => hwn (e ▸ h2)⟩
    · rcases mem_allKeys hf' with ⟨h1, h2⟩
      exact ⟨fun e => hfn' (e ▸ h1), fun e => hwn (e ▸ h1),
        fun e => hfn' (e ▸ h2), fun e => hwn (e ▸ h2)⟩
    · exact ih htl hf' hd'

theorem lookupKey_eq_none {k : String} {l : List (String × Value)}
    (h : ∀ p ∈ l, p.1 ≠ k) : lookupKey k l = none := by
  induction l with
  | nil => rfl
  | cons p tl ih =>
    rw [lookupKey]
    rw [if_neg (h p (List.mem_cons_self ..))]
    exact ih fun q hq => h q (List.mem_cons_of_mem _ hq)

theorem findAlias_skip {choices : List String} {k : String} {v : Value}
    {r : List (String × Value)} (h : ∀ c ∈ choices, c ≠ k) :
    findAlias choices ((k, v) :: r) = findAlias choices r := by
  induction choices with
  | nil => rfl
  | cons c cs ih =>
    rw [findAlias, findAlias, lookupKey]
    rw [if_neg (fun e => h c (List.mem_cons_self ..) e.symm)]
    cases lookupKey c r with
    | some w => rfl
    | none => exact ih fun c' hc' => h c' (List.mem_cons_of_mem _ hc')

theorem findAlias_key_first {a b : String} {v : Value} {r : List (String × Value)} :
    findAlias [a, b] ((a, v) :: r) = some v := by
  rw [findAlias, lookupKey, if_pos rfl]

theorem findAlias_key_second {a b : String} {v : Value} {r : List (String × Value)}
    (hab : a ≠ b) (hr : lookupKey a r = none) :
    findAlias [a, b] ((b, v) :: r) = some v := by
  rw [findAlias, lookupKey, if_neg (fun e => hab e.symm), hr, findAlias, lookupKey,
    if_pos rfl]

theorem bindField_congr {mf : ModelField} {i1 i2 : List (String × Value)}
    (h : findAlias mf.aliases i1 = findAlias mf.aliases i2) :
    bindField mf i1 = bindField mf i2 := by
  rw [bindField, bindField, h]

theorem bindResults_congr {m : List ModelField} {i1 i2 : List (String × Value)}
    (h : ∀ mf ∈ m, bindField mf i1 = bindField mf i2) :
    bindResults m i1 = bindResults m i2 := by
  induction m with
  | nil => rfl
  | cons mf tl ih =>
    rw [bindResults, List.map_cons, bindResults, List.map_cons,
      h mf (List.mem_cons_self ..)]
    have := ih fun g hg => h g (List.mem_cons_of_mem _ hg)
    rw [bindResults, bindResults] at this
    rw [this]

theorem model_validate_congr {m : Model} {i1 i2 : List (String × Value)}
    (h : ∀ mf ∈ m.fields, bindField mf i1 = bindField mf i2) :
    model_validate m i1 = model_validate m i2 := by
  rw [model_validate, model_validate, bindResults_congr h]

theorem get_field_text {d : FieldMapper} (ht : d.widget_type = "text") :
    d.get_field = .ok { ftype := .str,
                        aliases := [d.field_name, d.widget_name],
                        serAlias := d.widget_name,
                        maxLength := d.max_length,
                        default := valueOfDefault d.default_value } := by
  rw [FieldMapper.get_field, if_pos ht]
  cases h : d.max_length with
  | some k => rfl
  | none => rfl

theorem get_field_shape {d : FieldMapper} {fd : FieldDef} (h : d.get_field = .ok fd) :
    fd.aliases = [d.field_name, d.widget_name] ∧ fd.serAlias = d.widget_name := by
  rw [FieldMapper.get_field] at h
  by_cases h1 : d.widget_type = "text"
  · rw [if_pos h1] at h
    cases hml : d.max_length with
    | some k => rw [hml] at h; cases h; exact ⟨rfl, rfl⟩
    | none => rw [hml] at h; cases h; exact ⟨rfl, rfl⟩
  · rw [if_neg h1] at h
    by_cases h2 : d.widget_type = "checkbox"
    · rw [if_pos h2] at h
      match hdv : d.default_value with
      | some (.inl s) => rw [hdv] at h; cases h
      | some (.inr b) => rw [hdv] at h; cases h; exact ⟨rfl, rfl⟩
      | none => rw [hdv] at h; cases h; exact ⟨rfl, rfl⟩
    · rw [if_neg h2] at h; cases h

theorem genFields_ok {ds : List FieldMapper} {prs : List (String × FieldDef)}
    (h : genFields ds = .ok prs) :
    List.Forall₂ (fun d (p : String × FieldDef) =>
      p.1 = d.field_name ∧ d.get_field = .ok p.2) ds prs := by
  induction ds generalizing prs with
  | nil => rw [genFields] at h; cases h; exact .nil
  | cons d tl ih =>
    rw [genFields] at h
    cases hg : d.get_field with
    | error e => rw [hg] at h; cases h
    | ok fd =>
      rw [hg] at h
      cases ht : genFields tl with
      | error e => rw [ht] at h; cases h
      | ok tlp =>
        rw [ht] at h
        cases h
        exact .cons ⟨rfl, hg⟩ (ih ht)

theorem forall₂_keys {ds : List FieldMapper} {prs : List (String × FieldDef)}
    (h : List.Forall₂ (fun d (p : String × FieldDef) =>
      p.1 = d.field_name ∧ d.get_field = .ok p.2) ds prs) :
    prs.map Prod.fst = ds.map FieldMapper.field_name := by
  induction h with
  | nil => rfl
  | cons hr _ ih => rw [List.map_cons, List.map_cons, hr.1, ih]

theorem dictInsert_fresh {k : String} {v : α} {l : List (String × α)}
    (h : ∀ p ∈ l, p.1 ≠ k) : dictInsert k v l = l ++ [(k, v)] := by
  induction l with
  | nil => rfl
  | cons p tl ih =>
    rw [dictInsert]
    rw [if_neg (h p (List.mem_cons_self ..))]
    rw [ih fun q hq => h q (List.mem_cons_of_mem _ hq), List.cons_append]

theorem dictOf_foldl_nodup {l acc : List (String × α)}
    (h : ((acc ++ l).map Prod.fst).Nodup) :
    List.foldl (fun acc p => dictInsert p.1 p.2 acc) acc l = acc ++ l := by
  induction l generalizing acc with
  | nil => rw [List.foldl_nil, List.append_nil]
  | cons p tl ih =>
    rw [List.foldl_cons]
    have hfresh : ∀ q ∈ acc, q.1 ≠ p.1 := by
      intro q hq e
      have hmem : p.1 ∈ (acc.map Prod.fst) := e ▸ List.mem_map_of_mem _ hq
      have hsplit : ((acc ++ p :: tl).map Prod.fst) =
          acc.map Prod.fst ++ p.1 :: tl.map Prod.fst := by
        rw [List.map_append, List.map_cons]
      rw [hsplit] at h
      rcases (List.nodup_append.mp h) with ⟨_, _, hdisj⟩
      exact hdisj hmem (List.mem_cons_self ..)
    rw [dictInsert_fresh hfresh]
    have h' : (((acc ++ [p]) ++ tl).map Prod.fst).Nodup := by
      rw [List.append_assoc, List.singleton_append]; exact h
    rw [ih h', List.append_assoc, List.singleton_append]

theorem dictOf_nodup {l : List (String × α)} (h : (l.map Prod.fst).Nodup) :
    dictOf l = l := by
  rw [dictOf, dictOf_foldl_nodup (by rw [List.nil_append]; exact h), List.nil_append]

theorem forall₂_mem_left {R : α → β → Prop} {l1 : List α} {l2 : List β}
    (h : List.Forall₂ R l1 l2) (ha : a ∈ l1) : ∃ b ∈ l2, R a b := by
  induction h with
  | nil => cases ha
  | cons hr _ ih =>
    rcases List.mem_cons.mp ha with rfl | ha'
    · exact ⟨_, List.mem_cons_self .., hr⟩
    · rcases ih ha' with ⟨b, hb, hrb⟩
      exact ⟨b, List.mem_cons_of_mem _ hb, hrb⟩

theorem forall₂_mem_right {R : α → β → Prop} {l1 : List α} {l2 : List β}
    (h : List.Forall₂ R l1 l2) (hb : b ∈ l2) : ∃ a ∈ l1, R a b := by
  induction h with
  | nil => cases hb
  | cons hr _ ih =>
    rcases List.mem_cons.mp hb with rfl | hb'
    · exact ⟨_, List.mem_cons_self .., hr⟩
    · rcases ih hb' with ⟨a, ha, hra⟩
      exact ⟨a, List.mem_cons_of_mem _ ha, hra⟩

theorem mkModel_fields {nm : String} {ds : List FieldMapper} {M : Model}
    (hM : mkModel nm ds = .ok M) (hnd : (ds.map FieldMapper.field_name).Nodup) :
    List.Forall₂ (fun d mf => ∃ fd, d.get_field = .ok fd ∧
      mf = toModelField ds d.field_name fd) ds M.fields := by
  rw [mkModel] at hM
  cases hg : genFields ds with
  | error e => rw [hg] at hM; cases hM
  | ok prs =>
    rw [hg] at hM
    cases hM
    have hcorr := genFields_ok hg
    have hkeys := forall₂_keys hcorr
    rw [dictOf_nodup (hkeys ▸ hnd)]
    rw [List.forall₂_map_right_iff]
    refine hcorr.imp ?_
    intro d p hp
    exact ⟨p.2, hp.2, by rw [hp.1]⟩

theorem forall₂_names_aux {ds l1 : List FieldMapper} {l2 : List ModelField}
    (h : List.Forall₂ (fun d mf => ∃ fd, d.get_field = .ok fd ∧
      mf = toModelField ds d.field_name fd) l1 l2) :
    l2.map ModelField.name = l1.map FieldMapper.field_name := by
  induction h with
  | nil => rfl
  | cons hr _ ih =>
    rcases hr with ⟨fd, _, rfl⟩
    rw [List.map_cons, List.map_cons, ih]
    rfl

theorem forall₂_serAliases_aux {ds l1 : List FieldMapper} {l2 : List ModelField}
    (h : List.Forall₂ (fun d mf => ∃ fd, d.get_field = .ok fd ∧
      mf = toModelField ds d.field_name fd) l1 l2) :
    l2.map ModelField.serAlias = l1.map FieldMapper.widget_name := by
  induction h with
  | nil => rfl
  | cons hr _ ih =>
    rcases hr with ⟨fd, hfd, rfl⟩
    rw [List.map_cons, List.map_cons, ih]
    have hser := (get_field_shape hfd).2
    simp only [toModelField, hser]

theorem mkModel_names {nm : String} {ds : List FieldMapper} {M : Model}
    (hM : mkModel nm ds = .ok M) (hnd : (ds.map FieldMapper.field_name).Nodup) :
    M.fields.map ModelField.name = ds.map FieldMapper.field_name :=
  forall₂_names_aux (mkModel_fields hM hnd)

theorem mkModel_serAliases {nm : String} {ds : List FieldMapper} {M : Model}
    (hM : mkModel nm ds = .ok M) (hnd : (ds.map FieldMapper.field_name).Nodup) :
    M.fields.map ModelField.serAlias = ds.map FieldMapper.widget_name :=
  forall₂_serAliases_aux (mkModel_fields hM hnd)

theorem collect_ok_forall₂ {rs : List (String × Except String Value)}
    (h : collectErrors rs = []) :
    List.Forall₂ (fun (p : String × Except String Value) (q : String × Value) =>
      q.1 = p.1 ∧ p.2 = .ok q.2) rs (collectOks rs) := by
  induction rs with
  | nil => exact .nil
  | cons p tl ih =>
    cases hp : p.2 with
    | error e =>
      exfalso
      rw [collectErrors, List.filterMap_cons, hp] at h
      cases h
    | ok v =>
      rw [collectErrors, List.filterMap_cons, hp] at h
      rw [collectOks, List.filterMap_cons, hp]
      refine .cons ⟨rfl, hp⟩ ?_
      exact ih h

theorem model_validate_ok {m : Model} {input inst : List (String × Value)}
    (h : model_validate m input = .ok inst) :
    List.Forall₂ (fun mf (q : String × Value) =>
      q.1 = mf.name ∧ bindField mf input = .ok q.2) m.fields inst := by
  rw [model_validate] at h
  cases he : collectErrors (bindResults m.fields input) with
  | cons q tlq => rw [he] at h; cases h
  | nil =>
    rw [he] at h
    cases h
    have hc := collect_ok_forall₂ he
    simp only [bindResults, List.forall₂_map_left_iff] at hc
    exact hc.imp fun _ _ hr => hr

theorem lookup_inst {flds : List ModelField} {inst : List (String × Value)}
    {input : List (String × Value)} {mf : ModelField}
    (h : List.Forall₂ (fun g (q : String × Value) =>
      q.1 = g.name ∧ bindField g input = .ok q.2) flds inst)
    (hnd : (flds.map ModelField.name).Nodup) (hmf : mf ∈ flds) :
    ∃ v, bindField mf input = .ok v ∧ lookupKey mf.name inst = some v := by
  induction h with
  | nil => cases hmf
  | @cons g q tlf tlq hr htl ih =>
    rcases List.mem_cons.mp hmf with rfl | hmf'
    · refine ⟨q.2, hr.2, ?_⟩
      rw [show q = (q.1, q.2) from rfl, lookupKey, hr.1, if_pos rfl]
    · rw [List.map_cons] at hnd
      rcases List.nodup_cons.mp hnd with ⟨hgn, htlnd⟩
      have hne : q.1 ≠ mf.name := by
        rw [hr.1]
        intro e
        exact hgn (e ▸ List.mem_map_of_mem ModelField.name hmf')
      rcases ih htlnd hmf' with ⟨v, hv, hl⟩
      refine ⟨v, hv, ?_⟩
      rw [show q = (q.1, q.2) from rfl, lookupKey, if_neg hne, hl]

theorem bound_value_lookup {nm : String} {ds : List FieldMapper} {M : Model}
    {input : List (String × Value)} {mf : ModelField} {w : Value}
    (hM : mkModel nm ds = .ok M) (hnd : (ds.map FieldMapper.field_name).Nodup)
    (hmf : mf ∈ M.fields) (hbind : bindField mf input = .ok w) :
    ∀ inst, model_validate M input = .ok inst → lookupKey mf.name inst = some w := by
  intro inst hv
  have hndM : (M.fields.map ModelField.name).Nodup := by
    rw [mkModel_names hM hnd]; exact hnd
  rcases lookup_inst (model_validate_ok hv) hndM hmf with ⟨v, hv', hl⟩
  rw [hbind] at hv'
  cases hv'
  exact hl

theorem any_coerce {ds : List FieldMapper} {f : FieldMapper}
    (hf : f ∈ ds) (ht : f.widget_type = "text") :
    ds.any (fun d => d.field_name == f.field_name && d.widget_type == "text") = true := by
  rw [List.any_eq_true]
  exact ⟨f, hf, by simp [ht]⟩

/-- The field the synthesized type carries for a text-typed descriptor:
a string field with both alias keys, widget-name serialization, the
descriptor's constraint and default, and the string before-validator. -/
def textModelField (f : FieldMapper) : ModelField :=
  { name := f.field_name, ftype := FType.str,
    aliases := [f.field_name, f.widget_name], serAlias := f.widget_name,
    maxLength := f.max_length, default := valueOfDefault f.default_value,
    coerceStr := true }

theorem text_model_field {nm : String} {ds : List FieldMapper} {M : Model}
    {f : FieldMapper} (hM : mkModel nm ds = .ok M)
    (hnd : (ds.map FieldMapper.field_name).Nodup)
    (hf : f ∈ ds) (ht : f.widget_type = "text") :
    textModelField f ∈ M.fields := by
  rcases forall₂_mem_left (mkModel_fields hM hnd) hf with ⟨mf, hmem, fd, hfd, rfl⟩
  rw [get_field_text ht] at hfd
  cases hfd
  have hc := any_coerce hf ht
  rw [toModelField] at hmem
  rw [textModelField]
  simp only [hc] at hmem
  exact hmem

theorem bindField_text_present {f : FieldMapper} {input : List (String × Value)}
    {v : Value} (hin : findAlias [f.field_name, f.widget_name] input = some v) :
    bindField (textModelField f) input
      = validateValue .str f.max_length (.VStr (any_to_str v)) := by
  rw [bindField]
  simp only [textModelField]
  rw [hin]
  rfl

theorem bindField_text_absent {f : FieldMapper} {input : List (String × Value)}
    (hin : findAlias [f.field_name, f.widget_name] input = none) :
    bindField (textModelField f) input = .ok (valueOfDefault f.default_value) := by
  rw [bindField]
  simp only [textModelField]
  rw [hin]

theorem validateValue_str_ok {ml : Option Int} {s : String}
    (h : ∀ k : Int, ml = some k → (s.length : Int) ≤ k) :
    validateValue .str ml (.VStr s) = .ok (.VStr s) := by
  cases hk : ml with
  | none => rfl
  | some k =>
    rw [validateValue]
    rw [if_pos (h k hk)]

theorem get_field_unsupported {f : FieldMapper}
    (h : f.widget_type ∈ ["radio", "dropdown", "signature"]) :
    f.get_field = .error (.notImplemented
      ("Widget type " ++ f.widget_type ++ " not implemented.")) := by
  have hne : f.widget_type ≠ "text" ∧ f.widget_type ≠ "checkbox" := by
    rcases List.mem_cons.mp h with e | h'
    · rw [e]; exact ⟨by decide, by decide⟩
    rcases List.mem_cons.mp h' with e | h''
    · rw [e]; exact ⟨by decide, by decide⟩
    rcases List.mem_cons.mp h'' with e | h3
    · rw [e]; exact ⟨by decide, by decide⟩
    · cases h3
  rw [FieldMapper.get_field, if_neg hne.1, if_neg hne.2]

theorem genFields_append_error {pre post : List FieldMapper} {d : FieldMapper}
    {e : GenErr} (hpre : ∀ d' ∈ pre, ∃ fd, d'.get_field = .ok fd)
    (hd : d.get_field = .error e) :
    genFields (pre ++ d :: post) = .error e := by
  induction pre with
  | nil => rw [List.nil_append, genFields, hd]
  | cons a tl ih =>
    rw [List.cons_append, genFields]
    rcases hpre a (List.mem_cons_self ..) with ⟨fd, hfd⟩
    rw [hfd, ih fun d' hd' => hpre d' (List.mem_cons_of_mem _ hd')]

/-! Claim theorems. -/

/-- C2: for the schema with fields name (text, widget f1_1[0]), ssn (text,
widget f1_2[0]) and exceptions (checkbox, widget c1_1[0]), binding the input
keyed by logical names with the two strings and True succeeds, and dumping the
bound instance by alias yields exactly the three widget-keyed entries, with no
extra and no missing keys. -/
theorem c2_roundtrip_exact :
    (mkModel "TestForm"
      [{ field_name := "name", widget_type := "text", widget_name := "f1_1[0]" },
       { field_name := "ssn", widget_type := "text", widget_name := "f1_2[0]" },
       { field_name := "exceptions", widget_type := "checkbox",
         widget_name := "c1_1[0]" }]).map
      (fun m =>
        (model_validate m
          [("name", .VStr "John Doe"), ("ssn", .VStr "123-45-6789"),
           ("exceptions", .VBool true)]).map
          (fun inst => model_dump_by_alias m inst))
    = .ok (.ok [("f1_1[0]", .VStr "John Doe"), ("f1_2[0]", .VStr "123-45-6789"),
        ("c1_1[0]", .VBool true)]) := by
  rfl

/-- C4 counterexample: constructing a checkbox-typed FieldMapper with the
string default value "yes" succeeds, so the claimed construction-time failure
does not happen; the TypeError surfaces only when get_field runs. -/
theorem c4_counterexample :
    constructFieldMapper "exceptions" "checkbox" none "c1_1[0]" (some (.inl "yes"))
      = .ok { field_name := "exceptions", widget_type := "checkbox",
              max_length := none, widget_name := "c1_1[0]",
              default_value := some (.inl "yes") }
    ∧ FieldMapper.get_field
        { field_name := "exceptions", widget_type := "checkbox",
          widget_name := "c1_1[0]", default_value := some (.inl "yes") }
      = .error (.typeError "Checkbox default value must be a boolean.") :=
  ⟨rfl, rfl⟩

/-- C4 (corrected): a checkbox-typed FieldMapper with a string default_value
is constructed successfully; the TypeError is raised only when get_field runs
during schema synthesis, and synthesizing any schema holding that descriptor
fails with it. -/
theorem c4_checkbox_default_deferred (n w nm : String) (ml : Option Int) (s : String) :
    constructFieldMapper n "checkbox" ml w (some (.inl s))
      = .ok { field_name := n, widget_type := "checkbox", max_length := ml,
              widget_name := w, default_value := some (.inl s) }
    ∧ FieldMapper.get_field
        { field_name := n, widget_type := "checkbox", max_length := ml,
          widget_name := w, default_value := some (.inl s) }
      = .error (.typeError "Checkbox default value must be a boolean.")
    ∧ mkModel nm
        [{ field_name := n, widget_type := "checkbox", max_length := ml,
           widget_name := w, default_value := some (.inl s) }]
      = .error (.typeError "Checkbox default value must be a boolean.") :=
  ⟨rfl, rfl, rfl⟩

/-- C9: every FieldMapper constructed without an explicit widget_type — with
any max_length and any default_value — defaults to text and contributes
exactly a text field: string value type, both alias keys accepted,
widget-name serialization, the configured max_length and default carried
through, and the string before-validator registered. -/
theorem c9_default_text (n w nm : String) (ml : Option Int)
    (dv : Option (String ⊕ Bool)) :
    ({ field_name := n, max_length := ml, widget_name := w,
       default_value := dv } : FieldMapper).widget_type = "text"
    ∧ FieldMapper.get_field
        { field_name := n, max_length := ml, widget_name := w,
          default_value := dv }
      = .ok { ftype := .str, aliases := [n, w], serAlias := w,
              maxLength := ml, default := valueOfDefault dv }
    ∧ mkModel nm
        [{ field_name := n, max_length := ml, widget_name := w,
           default_value := dv }]
      = .ok { name := nm,
              fields := [{ name := n, ftype := .str, aliases := [n, w],
                           serAlias := w, maxLength := ml,
                           default := valueOfDefault dv,
                           coerceStr := true }] } := by
  have hg := get_field_text
    (d := { field_name := n, max_length := ml, widget_name := w,
            default_value := dv }) rfl
  refine ⟨rfl, hg, ?_⟩
  simp [mkModel, genFields, hg, dictOf, dictInsert, toModelField]

/-- C10: constructing a PdfForm with blank_pdf_path given as a string stores
Path of that string; a value already given as a Path is stored unchanged. -/
theorem c10_str_to_path (s nm : String) (fs : List FieldMapper) (p : Path) :
    (mkPdfForm nm fs (.inl s)).blank_pdf_path = Path.mk s
    ∧ (mkPdfForm nm fs (.inr p)).blank_pdf_path = p :=
  ⟨rfl, rfl⟩

/-- C1 counterexample: in the schema with fields a (text, widget w) and
b (text, widget a), field b's widget name collides with field a's logical
name, and binding the value "v" for field a keyed by its logical name gives a
different validated instance than keying it by its widget name. -/
theorem c1_counterexample :
    (mkModel "F"
      [{ field_name := "a", widget_type := "text", widget_name := "w" },
       { field_name := "b", widget_type := "text", widget_name := "a" }]).map
      (fun m => (model_validate m [("a", .VStr "v")],
                 model_validate m [("w", .VStr "v")]))
    = .ok (.ok [("a", .VStr "v"), ("b", .VStr "v")],
           .ok [("a", .VStr "v"), ("b", .VNone)])
    ∧ ([("a", Value.VStr "v"), ("b", Value.VStr "v")] : List (String × Value))
      ≠ [("a", .VStr "v"), ("b", .VNone)] := by
  exact ⟨rfl, by decide⟩

/-- C3 counterexample: for the schema with the single text field a (widget w)
and no default, binding the empty input succeeds but the bound instance holds
None for a, not the empty string. -/
theorem c3_counterexample :
    (mkModel "F"
      [{ field_name := "a", widget_type := "text", widget_name := "w" }]).map
      (fun m => model_validate m [])
    = .ok (.ok [("a", .VNone)])
    ∧ Value.VNone ≠ .VStr "" := by
  exact ⟨rfl, by decide⟩

/-- C5 counterexample: synthesizing the schema with the single dropdown field
named choice fails with a NotImplementedError whose message names the widget
type but does not contain the offending field name, and the cache slot is
still empty afterwards. -/
theorem c5_counterexample :
    generate_model
      ⟨⟨"F", [{ field_name := "choice", widget_type := "dropdown",
                widget_name := "w1" }], ⟨"b.pdf"⟩⟩, none⟩
      = (.error (.notImplemented "Widget type dropdown not implemented."),
         ⟨⟨"F", [{ field_name := "choice", widget_type := "dropdown",
                   widget_name := "w1" }], ⟨"b.pdf"⟩⟩, none⟩)
    ∧ ¬ ("choice".toList <:+: "Widget type dropdown not implemented.".toList) := by
  exact ⟨rfl, by decide⟩

/-- C6 counterexample: for a text field with max_length 2, binding the numeric
input 10000.78 does not succeed: the coerced string violates the length
constraint, so the universally stated claim fails. -/
theorem c6_counterexample :
    (mkModel "F"
      [{ field_name := "a", widget_type := "text", max_length := some 2,
         widget_name := "w" }]).map
      (fun m => model_validate m [("a", .VNum "10000.78")])
    = .ok (.error [("a", "string_too_long")]) := by
  rfl

/-- C1 (corrected): for a synthesized schema whose logical field names and
widget names are pairwise distinct, binding an input that keys a field's value
by the logical field name yields the same validated result as binding the
input that keys the same value by the widget name, and serialized output is
always keyed by widget name.  The distinctness condition is forced: the
original claim fails when one field's widget name collides with another
field's logical name. -/
theorem c1_dual_keying (ds : List FieldMapper) (nm : String) (M : Model)
    (f : FieldMapper) (v : Value) (rest : List (String × Value))
    (hM : mkModel nm ds = .ok M) (hf : f ∈ ds)
    (hkeys : (allKeys ds).Nodup)
    (hrest : ∀ p ∈ rest, p.1 ≠ f.field_name) :
    model_validate M ((f.field_name, v) :: rest)
      = model_validate M ((f.widget_name, v) :: rest)
    ∧ ∀ inst : List (String × Value),
        (model_dump_by_alias M inst).map Prod.fst = ds.map FieldMapper.widget_name := by
  have hnd := allKeys_nodup_names hkeys
  constructor
  · apply model_validate_congr
    intro mf hmf
    rcases forall₂_mem_right (mkModel_fields hM hnd) hmf with ⟨d, hd, fd, hfd, rfl⟩
    apply bindField_congr
    have hal : (toModelField ds d.field_name fd).aliases
        = [d.field_name, d.widget_name] := (get_field_shape hfd).1
    rw [hal]
    by_cases hdf : d = f
    · subst hdf
      rw [findAlias_key_first,
        findAlias_key_second (allKeys_fn_ne_wn hkeys hd) (lookupKey_eq_none hrest)]
    · rcases allKeys_disj hkeys hf hd hdf with ⟨h1, h2, h3, h4⟩
      have hskip1 : ∀ c ∈ [d.field_name, d.widget_name], c ≠ f.field_name := by
        intro c hc
        rcases List.mem_cons.mp hc with rfl | hc'
        · exact fun e => h1 e.symm
        rcases List.mem_cons.mp hc' with rfl | hc''
        · exact fun e => h2 e.symm
        · cases hc''
      have hskip2 : ∀ c ∈ [d.field_name, d.widget_name], c ≠ f.widget_name := by
        intro c hc
        rcases List.mem_cons.mp hc with rfl | hc'
        · exact fun e => h3 e.symm
        rcases List.mem_cons.mp hc' with rfl | hc''
        · exact fun e => h4 e.symm
        · cases hc''
      rw [findAlias_skip hskip1, findAlias_skip hskip2]
  · intro inst
    have hs := mkModel_serAliases hM hnd
    rw [model_dump_by_alias, List.map_map]
    exact hs

/-- C3 (corrected): for a text-typed field of a synthesized schema with
distinct field names and a non-negative length bound, binding an input whose
value for the field is None succeeds for that field and the bound instance
holds the empty string there; binding an input in which the field is absent
succeeds for that field but the bound instance holds the configured default
value, which is None rather than empty string when no default is set.  The
original claim, that the absent case also yields the empty string, fails. -/
theorem c3_null_vs_absent (ds : List FieldMapper) (nm : String) (M : Model)
    (f : FieldMapper) (input1 input2 : List (String × Value))
    (hM : mkModel nm ds = .ok M)
    (hnd : (ds.map FieldMapper.field_name).Nodup)
    (hf : f ∈ ds) (ht : f.widget_type = "text")
    (hml : ∀ k : Int, f.max_length = some k → 0 ≤ k)
    (h1 : findAlias [f.field_name, f.widget_name] input1 = some .VNone)
    (h2 : findAlias [f.field_name, f.widget_name] input2 = none) :
    (∃ mf ∈ M.fields, mf.name = f.field_name ∧
      bindField mf input1 = .ok (.VStr "") ∧
      bindField mf input2 = .ok (valueOfDefault f.default_value))
    ∧ (∀ inst, model_validate M input1 = .ok inst →
        lookupKey f.field_name inst = some (.VStr ""))
    ∧ (∀ inst, model_validate M input2 = .ok inst →
        lookupKey f.field_name inst = some (valueOfDefault f.default_value)) := by
  have hmem := text_model_field hM hnd hf ht
  have hb1 : bindField (textModelField f) input1 = .ok (.VStr "") := by
    rw [bindField_text_present h1]
    exact validateValue_str_ok fun k hk =>
      le_trans (by rw [String.length]; exact Int.le_refl 0) (hml k hk)
  have hb2 : bindField (textModelField f) input2
      = .ok (valueOfDefault f.default_value) := bindField_text_absent h2
  refine ⟨⟨textModelField f, hmem, rfl, hb1, hb2⟩, ?_, ?_⟩
  · exact bound_value_lookup hM hnd hmem hb1
  · exact bound_value_lookup hM hnd hmem hb2

/-- C6 (corrected): for a text-typed field of a synthesized schema with
distinct field names, binding a numeric input value whose string form
respects the configured max_length succeeds and the bound instance holds the
string form of the number: the string coercion runs before the type check, so
numeric input is never rejected as a type mismatch.  The length-bound
condition is forced: with max_length configured below the rendered length the
binding fails on the length constraint. -/
theorem c6_numeric_coercion (ds : List FieldMapper) (nm : String) (M : Model)
    (f : FieldMapper) (r : String) (input : List (String × Value))
    (hM : mkModel nm ds = .ok M)
    (hnd : (ds.map FieldMapper.field_name).Nodup)
    (hf : f ∈ ds) (ht : f.widget_type = "text")
    (hml : ∀ k : Int, f.max_length = some k → (r.length : Int) ≤ k)
    (hin : findAlias [f.field_name, f.widget_name] input = some (.VNum r)) :
    (∃ mf ∈ M.fields, mf.name = f.field_name ∧ bindField mf input = .ok (.VStr r))
    ∧ ∀ inst, model_validate M input = .ok inst →
        lookupKey f.field_name inst = some (.VStr r) := by
  have hmem := text_model_field hM hnd hf ht
  have hb : bindField (textModelField f) input = .ok (.VStr r) := by
    rw [bindField_text_present hin]
    exact validateValue_str_ok hml
  exact ⟨⟨textModelField f, hmem, rfl, hb⟩, bound_value_lookup hM hnd hmem hb⟩

/-- C5 (corrected): synthesizing a schema that contains a radio, dropdown or
signature descriptor after well-behaved descriptors fails with a
NotImplementedError that names the offending widget type (not the field), and
the cache slot is left empty.  The original claim that the error names the
offending field fails: the message mentions only the widget type. -/
theorem c5_unsupported_widget (nm : String) (bp : Path) (pre post : List FieldMapper)
    (d : FieldMapper)
    (hpre : ∀ d' ∈ pre, ∃ fd, d'.get_field = .ok fd)
    (hd : d.widget_type ∈ ["radio", "dropdown", "signature"]) :
    generate_model ⟨⟨nm, pre ++ d :: post, bp⟩, none⟩
      = (.error (.notImplemented
          ("Widget type " ++ d.widget_type ++ " not implemented.")),
         ⟨⟨nm, pre ++ d :: post, bp⟩, none⟩) := by
  have hgen : genFields (pre ++ d :: post)
      = .error (.notImplemented
          ("Widget type " ++ d.widget_type ++ " not implemented.")) :=
    genFields_append_error hpre (get_field_unsupported hd)
  simp only [generate_model, mkModel, hgen]

/-- C7: once generate_model has returned a synthesized type, the cache slot
holds it, and every subsequent generate_model call, as well as the form
property, returns the identical cached type with the state unchanged. -/
theorem c7_cached_model (s : PdfFormState) (m : Model) (s' : PdfFormState)
    (h : generate_model s = (.ok m, s')) :
    s'.formModel = some m
    ∧ generate_model s' = (.ok m, s')
    ∧ formProperty s' = (.ok m, s') := by
  have hs' : s'.formModel = some m := by
    unfold generate_model at h
    cases hc : s.formModel with
    | some m0 =>
      rw [hc] at h
      injection h with h1 h2
      injection h1 with h1
      rw [← h2, hc, h1]
    | none =>
      rw [hc] at h
      cases hmk : mkModel s.form.name s.form.fields with
      | ok m1 =>
        rw [hmk] at h
        injection h with h1 h2
        injection h1 with h1
        rw [← h2, h1]
      | error e =>
        rw [hmk] at h
        injection h with h1 h2
        cases h1
  refine ⟨hs', ?_, ?_⟩
  · unfold generate_model
    rw [hs']
  · unfold formProperty
    rw [hs']

/-- C8: generate_pdf runs the writer adapter's fill before touching the output
path; when the fill returns non-empty bytes the output file exists at the
requested path with exactly those bytes, and when the adapter raises the error
propagates with the file system unchanged, so no output file is created. -/
theorem c8_fill_then_write (fill : Except AdapterErr Bytes) (pathOut : String)
    (fs : FileSys) :
    (∀ bs : Bytes, bs ≠ [] → fill = .ok bs →
      (generate_pdf fill pathOut fs).1 = .ok ()
      ∧ (generate_pdf fill pathOut fs).2 pathOut = some bs ∧ bs ≠ [])
    ∧ ∀ e, fill = .error e → generate_pdf fill pathOut fs = (.error e, fs) := by
  constructor
  · intro bs hbs hf
    subst hf
    refine ⟨rfl, ?_, hbs⟩
    show (if pathOut = pathOut then some bs else fs pathOut) = some bs
    rw [if_pos rfl]
  · intro e hf
    subst hf
    rfl

/-- Witness for C1 at a concrete two-field schema. -/
theorem c1_dual_keying_witness :
    (allKeys
      [{ field_name := "name", widget_type := "text", widget_name := "f1_1[0]" },
       { field_name := "ssn", widget_type := "text", widget_name := "f1_2[0]" }]).Nodup
    ∧ model_validate
        { name := "F",
          fields := [{ name := "name", ftype := .str,
                       aliases := ["name", "f1_1[0]"], serAlias := "f1_1[0]",
                       maxLength := none, default := .VNone, coerceStr := true },
                     { name := "ssn", ftype := .str,
                       aliases := ["ssn", "f1_2[0]"], serAlias := "f1_2[0]",
                       maxLength := none, default := .VNone, coerceStr := true }] }
        [("name", .VStr "John"), ("ssn", .VStr "123")]
      = model_validate
        { name := "F",
          fields := [{ name := "name", ftype := .str,
                       aliases := ["name", "f1_1[0]"], serAlias := "f1_1[0]",
                       maxLength := none, default := .VNone, coerceStr := true },
                     { name := "ssn", ftype := .str,
                       aliases := ["ssn", "f1_2[0]"], serAlias := "f1_2[0]",
                       maxLength := none, default := .VNone, coerceStr := true }] }
        [("f1_1[0]", .VStr "John"), ("ssn", .VStr "123")]
    ∧ (model_dump_by_alias
        { name := "F",
          fields := [{ name := "name", ftype := .str,
                       aliases := ["name", "f1_1[0]"], serAlias := "f1_1[0]",
                       maxLength := none, default := .VNone, coerceStr := true },
                     { name := "ssn", ftype := .str,
                       aliases := ["ssn", "f1_2[0]"], serAlias := "f1_2[0]",
                       maxLength := none, default := .VNone, coerceStr := true }] }
        []).map Prod.fst
      = List.map FieldMapper.widget_name
          [{ field_name := "name", widget_type := "text", widget_name := "f1_1[0]" },
           { field_name := "ssn", widget_type := "text", widget_name := "f1_2[0]" }] := by
  have h := c1_dual_keying
    [{ field_name := "name", widget_type := "text", widget_name := "f1_1[0]" },
     { field_name := "ssn", widget_type := "text", widget_name := "f1_2[0]" }]
    "F"
    { name := "F",
      fields := [{ name := "name", ftype := .str,
                   aliases := ["name", "f1_1[0]"], serAlias := "f1_1[0]",
                   maxLength := none, default := .VNone, coerceStr := true },
                 { name := "ssn", ftype := .str,
                   aliases := ["ssn", "f1_2[0]"], serAlias := "f1_2[0]",
                   maxLength := none, default := .VNone, coerceStr := true }] }
    { field_name := "name", widget_type := "text", widget_name := "f1_1[0]" }
    (.VStr "John") [("ssn", .VStr "123")]
    rfl (by decide) (by decide) (by decide)
  exact ⟨by decide, h.1, h.2 []⟩

/-- Witness for C3 at a concrete one-field schema. -/
theorem c3_null_vs_absent_witness :
    mkModel "F" [{ field_name := "a", widget_type := "text", widget_name := "w" }]
      = .ok { name := "F",
              fields := [{ name := "a", ftype := .str, aliases := ["a", "w"],
                           serAlias := "w", maxLength := none, default := .VNone,
                           coerceStr := true }] }
    ∧ lookupKey "a" [("a", Value.VStr "")] = some (.VStr "")
    ∧ lookupKey "a" [("a", Value.VNone)] = some .VNone := by
  have h := c3_null_vs_absent
    [{ field_name := "a", widget_type := "text", widget_name := "w" }] "F"
    { name := "F",
      fields := [{ name := "a", ftype := .str, aliases := ["a", "w"],
                   serAlias := "w", maxLength := none, default := .VNone,
                   coerceStr := true }] }
    { field_name := "a", widget_type := "text", widget_name := "w" }
    [("a", .VNone)] []
    rfl (by decide) (by decide) rfl (fun k hk => nomatch hk) rfl rfl
  exact ⟨rfl, h.2.1 [("a", .VStr "")] rfl, h.2.2 [("a", .VNone)] rfl⟩

/-- Witness for C6 at a concrete one-field schema and the numeric input
10000.78. -/
theorem c6_numeric_coercion_witness :
    model_validate
      { name := "F",
        fields := [{ name := "amount", ftype := .str, aliases := ["amount", "f1[0]"],
                     serAlias := "f1[0]", maxLength := none, default := .VNone,
                     coerceStr := true }] }
      [("amount", .VNum "10000.78")]
      = .ok [("amount", .VStr "10000.78")]
    ∧ lookupKey "amount" [("amount", Value.VStr "10000.78")]
      = some (.VStr "10000.78") := by
  have h := c6_numeric_coercion
    [{ field_name := "amount", widget_type := "text", widget_name := "f1[0]" }] "F"
    { name := "F",
      fields := [{ name := "amount", ftype := .str, aliases := ["amount", "f1[0]"],
                   serAlias := "f1[0]", maxLength := none, default := .VNone,
                   coerceStr := true }] }
    { field_name := "amount", widget_type := "text", widget_name := "f1[0]" }
    "10000.78" [("amount", .VNum "10000.78")]
    rfl (by decide) (by decide) rfl (fun k hk => nomatch hk) rfl
  exact ⟨rfl, h.2 [("amount", .VStr "10000.78")] rfl⟩

/-- Witness for C5 at a concrete schema: one well-behaved text descriptor
followed by a dropdown descriptor. -/
theorem c5_unsupported_widget_witness :
    generate_model
      ⟨⟨"F", [{ field_name := "name", widget_type := "text", widget_name := "w0" },
              { field_name := "choice", widget_type := "dropdown",
                widget_name := "w1" }], ⟨"b.pdf"⟩⟩, none⟩
      = (.error (.notImplemented ("Widget type " ++ "dropdown" ++ " not implemented.")),
         ⟨⟨"F", [{ field_name := "name", widget_type := "text", widget_name := "w0" },
                 { field_name := "choice", widget_type := "dropdown",
                   widget_name := "w1" }], ⟨"b.pdf"⟩⟩, none⟩) := by
  have h := c5_unsupported_widget "F" ⟨"b.pdf"⟩
    [{ field_name := "name", widget_type := "text", widget_name := "w0" }] []
    { field_name := "choice", widget_type := "dropdown", widget_name := "w1" }
    (by
      intro d' hd'
      rcases List.mem_cons.mp hd' with rfl | h0
      · exact ⟨_, rfl⟩
      · cases h0)
    (by decide)
  exact h

/-- Witness for C7 at a concrete one-field schema: first call fills the cache,
the second call and the form property return the identical cached type. -/
theorem c7_cached_model_witness :
    (⟨⟨"F", [{ field_name := "a", widget_type := "text", widget_name := "w" }],
       ⟨"b.pdf"⟩⟩,
      some { name := "F",
             fields := [{ name := "a", ftype := .str, aliases := ["a", "w"],
                          serAlias := "w", maxLength := none, default := .VNone,
                          coerceStr := true }] }⟩ : PdfFormState).formModel
      = some { name := "F",
               fields := [{ name := "a", ftype := .str, aliases := ["a", "w"],
                            serAlias := "w", maxLength := none, default := .VNone,
                            coerceStr := true }] }
    ∧ generate_model
        ⟨⟨"F", [{ field_name := "a", widget_type := "text", widget_name := "w" }],
          ⟨"b.pdf"⟩⟩,
         some { name := "F",
                fields := [{ name := "a", ftype := .str, aliases := ["a", "w"],
                             serAlias := "w", maxLength := none, default := .VNone,
                             coerceStr := true }] }⟩
      = (.ok { name := "F",
               fields := [{ name := "a", ftype := .str, aliases := ["a", "w"],
                            serAlias := "w", maxLength := none, default := .VNone,
                            coerceStr := true }] },
         ⟨⟨"F", [{ field_name := "a", widget_type := "text", widget_name := "w" }],
           ⟨"b.pdf"⟩⟩,
          some { name := "F",
                 fields := [{ name := "a", ftype := .str, aliases := ["a", "w"],
                              serAlias := "w", maxLength := none, default := .VNone,
                              coerceStr := true }] }⟩)
    ∧ formProperty
        ⟨⟨"F", [{ field_name := "a", widget_type := "text", widget_name := "w" }],
          ⟨"b.pdf"⟩⟩,
         some { name := "F",
                fields := [{ name := "a", ftype := .str, aliases := ["a", "w"],
                             serAlias := "w", maxLength := none, default := .VNone,
                             coerceStr := true }] }⟩
      = (.ok { name := "F",
               fields := [{ name := "a", ftype := .str, aliases := ["a", "w"],
                            serAlias := "w", maxLength := none, default := .VNone,
                            coerceStr := true }] },
         ⟨⟨"F", [{ field_name := "a", widget_type := "text", widget_name := "w" }],
           ⟨"b.pdf"⟩⟩,
          some { name := "F",
                 fields := [{ name := "a", ftype := .str, aliases := ["a", "w"],
                              serAlias := "w", maxLength := none, default := .VNone,
                              coerceStr := true }] }⟩) :=
  c7_cached_model
    ⟨⟨"F", [{ field_name := "a", widget_type := "text", widget_name := "w" }],
      ⟨"b.pdf"⟩⟩, none⟩
    { name := "F",
      fields := [{ name := "a", ftype := .str, aliases := ["a", "w"],
                   serAlias := "w", maxLength := none, default := .VNone,
                   coerceStr := true }] }
    ⟨⟨"F", [{ field_name := "a", widget_type := "text", widget_name := "w" }],
      ⟨"b.pdf"⟩⟩,
     some { name := "F",
            fields := [{ name := "a", ftype := .str, aliases := ["a", "w"],
                         serAlias := "w", maxLength := none, default := .VNone,
                         coerceStr := true }] }⟩
    rfl

/-- Witness for C8: a successful fill with one byte creates the output file
with that byte, and a failing fill propagates the error and leaves the empty
file system untouched. -/
theorem c8_fill_then_write_witness :
    (generate_pdf (.ok [1]) "out.pdf" (fun _ => none)).2 "out.pdf" = some [1]
    ∧ generate_pdf (.error (.err "fill failed")) "out.pdf" (fun _ => none)
      = (.error (.err "fill failed"), fun _ => none) :=
  ⟨((c8_fill_then_write (.ok [1]) "out.pdf" (fun _ => none)).1 [1]
      (by decide) rfl).2.1,
   (c8_fill_then_write (.error (.err "fill failed")) "out.pdf" (fun _ => none)).2
      (.err "fill failed") rfl⟩

end PyPdfFill
